import Mathlib

/-!
Verification development for the avax.webdav WSGI/WebDAV stack.

The definitions below are shallow embeddings of the Python sources under
avax/webdav/: the request router and batch lifecycle of
wsgidav/wsgidav_app.py, the error taxonomy and error boundary of
wsgidav/dav_error.py and wsgidav/error_printer.py, the HTTP authenticator of
wsgidav/http_authenticator.py with the domain controller of
wsgidav/domain_controller.py, and the two resource providers
archive_provider.py and repo_provider.py.  Byte strings are modelled as
List Char; WSGI side effects (environ updates, backend batch calls, property
and lock manager calls) are modelled as explicit event traces; Python
exceptions are modelled with Except / sum-like result types.
-/

namespace AvaxWebdav

/-- Byte strings of the Python 2 sources, modelled as lists of characters. -/
abbrev Bytes := List Char

/-- Test for the slash character, the strip set of path.strip(b'/'). -/
def isSlash (c : Char) : Bool := c == '/'

/-- Python str.isspace characters, the strip set of str.strip() with no argument. -/
def pyIsSpace (c : Char) : Bool :=
  c == ' ' || c == '\t' || c == '\n' || c == '\r' || c == '\x0b' || c == '\x0c'

/-- Python str.strip(chars): drop characters satisfying p from both ends. -/
def pyStrip (p : Char → Bool) (s : Bytes) : Bytes :=
  ((s.dropWhile p).reverse.dropWhile p).reverse

/-- Share matching of WsgiDAVApp.call, wsgidav_app.py lines 284-295.
strip_path = path.strip(b'/'); if a slash remains the candidate share name is
the part before the first slash (split(b'/', 1)), else strip_path.strip();
share = b'/' + archive_name; the repository provider handles the empty name,
otherwise the provider registered for the share is looked up (None when
unregistered).  The provider map is an association list keyed by share path;
repoProvider is self.repo_provider. -/
def routeProvider {α : Type} (providerMap : List (Bytes × α)) (repoProvider : α)
    (path : Bytes) : Option α :=
  let strip_path := pyStrip isSlash path
  let archive_name :=
    if strip_path.contains '/' then strip_path.takeWhile (fun c => c != '/')
    else pyStrip pyIsSpace strip_path
  if archive_name = [] then some repoProvider
  else providerMap.lookup ('/' :: archive_name)

/-- The first path segment extracted by the router from an already
slash-stripped path: the part before the first slash when one is present,
else the whole string stripped of surrounding whitespace. -/
def firstSegment (s : Bytes) : Bytes :=
  if s.contains '/' then s.takeWhile (fun c => c != '/')
  else pyStrip pyIsSpace s

/-- Example provider map with the two shares that WsgiDAVApp.init always
registers (the repository root at the share b'/' and the filesystem provider
at b'/temp'), with string labels standing for the provider objects. -/
def exampleProviderMap : List (Bytes × String) :=
  [("/".toList, "repo"), ("/temp".toList, "fs")]

/-- READONLY_METHODS of wsgidav_app.py line 71. -/
def READONLY_METHODS : List String :=
  ["GET", "HEAD", "OPTIONS", "PROPFIND", "PROPGET"]

/-- The set of read-only methods the specification text names. -/
def claimedReadonlyMethods : List String :=
  ["GET", "HEAD", "OPTIONS", "PROPFIND"]

/-- Readonly flag for the per-request batch, wsgidav_app.py line 303:
readonly = method in READONLY_METHODS. -/
def batchReadonly (method : String) : Bool :=
  READONLY_METHODS.contains method

/-- The request batch bound into environ by the router (its readonly flag). -/
structure OpenedBatch where
  readonly : Bool
deriving DecidableEq

/-- Batch binding of WsgiDAVApp.call, wsgidav_app.py lines 299-307: when the
matched provider is an ArchiveProvider, a batch is opened with
begin_batch(readonly=readonly) and stored in environ; otherwise no batch is
bound. -/
def wsgiOpenBatch (providerIsArchive : Bool) (method : String) : Option OpenedBatch :=
  if providerIsArchive then some { readonly := batchReadonly method } else none

/-- What finally happens to the request batch. -/
inductive BatchDisposition where
  | committed
  | aborted
  | untouched
deriving DecidableEq

/-- Outcome of iterating the wrapped application: a normal return carrying the
response status, or a raised exception. -/
inductive HandlerOutcome where
  | ok (status : Nat)
  | exc
deriving DecidableEq

/-- Batch finalization of WsgiDAVApp.call, wsgidav_app.py lines 434-451: the
try body iterates the application; except Exception only logs; the finally
block runs batch.commit() whenever a batch is bound in environ.  Both the
normal branch and the exception branch therefore reach the same commit; the
response status is never consulted and no abort call exists in the module. -/
def wsgiFinalizeBatch (batchBound : Bool) (outcome : HandlerOutcome) : BatchDisposition :=
  match outcome with
  | .ok _ => if batchBound then .committed else .untouched
  | .exc => if batchBound then .committed else .untouched

end AvaxWebdav

namespace AvaxWebdav

/-- HTTP status constant of dav_error.py. -/
def HTTP_NO_CONTENT : Nat := 204
/-- HTTP status constant of dav_error.py. -/
def HTTP_NOT_MODIFIED : Nat := 304
/-- HTTP status constant of dav_error.py. -/
def HTTP_BAD_REQUEST : Nat := 400
/-- HTTP status constant of dav_error.py. -/
def HTTP_FORBIDDEN : Nat := 403
/-- HTTP status constant of dav_error.py. -/
def HTTP_INTERNAL_ERROR : Nat := 500

/-- ERROR_DESCRIPTIONS of dav_error.py lines 81-99. -/
def ERROR_DESCRIPTIONS : List (Nat × String) :=
  [(200, "200 OK"), (201, "201 Created"), (204, "204 No Content"),
   (304, "304 Not Modified"), (400, "400 Bad Request"), (403, "403 Forbidden"),
   (405, "405 Method Not Allowed"), (404, "404 Not Found"), (409, "409 Conflict"),
   (412, "412 Precondition Failed"), (416, "416 Range Not Satisfiable"),
   (415, "415 Media Type Not Supported"), (423, "423 Locked"),
   (424, "424 Failed Dependency"), (500, "500 Internal Server Error"),
   (501, "501 Not Implemented"), (502, "502 Bad Gateway")]

/-- ERROR_RESPONSES of dav_error.py lines 107-113. -/
def ERROR_RESPONSES : List (Nat × String) :=
  [(400, "An invalid request was specified"),
   (404, "The specified resource was not found"),
   (403, "Access denied to the specified resource"),
   (500, "An internal server error occurred"),
   (501, "Not Implemented")]

/-- getHttpStatusString of dav_error.py lines 231-240: the ERROR_DESCRIPTIONS
entry when one exists, else str(code). -/
def getHttpStatusString (code : Nat) : String :=
  (ERROR_DESCRIPTIONS.lookup code).getD (toString code)

/-- DAVErrorCondition of dav_error.py: a WebDAV pre/post-condition code with
optional conflicting hrefs.  The source stores the code in Clark notation
with the DAV: namespace in braces; here only the local name is kept. -/
structure DAVErrorCondition where
  conditionCode : String
  hrefs : List String
deriving DecidableEq

/-- Python repr of a list of strings, used by DAVErrorCondition str. -/
def pyListRepr (l : List String) : String :=
  "[" ++ String.intercalate ", " (l.map (fun s => "\x27" ++ s ++ "\x27")) ++ "]"

/-- String form of a DAVErrorCondition, dav_error.py lines 133-134. -/
def DAVErrorCondition.reprStr (c : DAVErrorCondition) : String :=
  c.conditionCode ++ "(" ++ pyListRepr c.hrefs ++ ")"

/-- Modelled from the spec: DAVErrorCondition.as_string serializes through
xml_tools.xmlToString and the etree library, which are not under src/.  The
spec states the shape of the body: an XML error document in the DAV:
namespace containing the condition element, with one href child per
conflicting resource. -/
def DAVErrorCondition.asString (c : DAVErrorCondition) : String :=
  "<error xmlns=\"DAV:\"><" ++ c.conditionCode ++ ">"
    ++ String.join (c.hrefs.map (fun h => "<href>" ++ h ++ "</href>"))
    ++ "</" ++ c.conditionCode ++ "></error>"

/-- DAVError of dav_error.py lines 156-172: status code, optional context
text, optional source exception (kept as its display string), optional
pre/post-condition. -/
structure DAVError where
  value : Nat
  contextinfo : Option String := none
  srcexception : Option String := none
  errcondition : Option DAVErrorCondition := none
deriving DecidableEq

/-- DAVError.getUserInfo of dav_error.py lines 180-197. -/
def DAVError.getUserInfo (e : DAVError) : String :=
  let s := (ERROR_DESCRIPTIONS.lookup e.value).getD (toString e.value)
  let s :=
    match e.contextinfo with
    | some ci => s ++ ": " ++ ci
    | none =>
      match ERROR_RESPONSES.lookup e.value with
      | some r => s ++ ": " ++ r
      | none => s
  let s :=
    match e.srcexception with
    | some ex => s ++ "\n    Source exception: \x27" ++ ex ++ "\x27"
    | none => s
  match e.errcondition with
  | some c => s ++ "\n    Error condition: \x27" ++ c.reprStr ++ "\x27"
  | none => s

/-- cgi.escape with default quote=False: replace ampersand, less-than and
greater-than by their entities. -/
def cgiEscape (s : String) : String :=
  String.mk (List.flatten (s.toList.map (fun c =>
    if c = '&' then "&amp;".toList
    else if c = '<' then "&lt;".toList
    else if c = '>' then "&gt;".toList
    else [c])))

/-- DAVError.getResponsePage of dav_error.py lines 199-220: a condition is
returned as an XML body with content type application/xml, otherwise a small
HTML page built around the status string and the escaped user info. -/
def DAVError.getResponsePage (e : DAVError) : String × String :=
  match e.errcondition with
  | some c => ("application/xml", c.asString)
  | none =>
    let status := getHttpStatusString e.value
    let html := String.intercalate "\n"
      ["<!DOCTYPE HTML PUBLIC \x27-//W3C//DTD HTML 4.01//EN\x27 \x27http://www.w3.org/TR/html4/strict.dtd\x27>",
       "<html><head>",
       "  <meta http-equiv=\x27Content-Type\x27 content=\x27text/html; charset=UTF-8\x27>",
       "  <title>" ++ status ++ "</title>",
       "</head><body>",
       "  <h1>" ++ status ++ "</h1>",
       "  <p>" ++ cgiEscape e.getUserInfo ++ "</p>",
       "<hr/>",
       "</body></html>"]
    ("text/html; charset=utf-8", html)

/-- Response assembled by the error boundary for a caught DAVError: status
line, Content-Type header when one is set, Content-Length header value, and
the body that is yielded to the client. -/
structure ErrorResponse where
  status : String
  contentType : Option String
  contentLength : Nat
  body : String
deriving DecidableEq

/-- DAVError handling of ErrorPrinter.call, error_printer.py lines 81-115:
statuses 304 and 204 get an empty body with Content-Length 0 and no
Content-Type header (this branch is checked before the condition is looked
at); every other status gets the page from getResponsePage, with
Content-Length set to the page length, and an empty body yielded when the
request method is HEAD.  The internal-error branch at line 86 only prints
and falls through. -/
def errorPrinterDAVResponse (e : DAVError) (method : String) : ErrorResponse :=
  let status := getHttpStatusString e.value
  if e.value == HTTP_NOT_MODIFIED || e.value == HTTP_NO_CONTENT then
    { status := status, contentType := none, contentLength := 0, body := "" }
  else
    let page := e.getResponsePage
    { status := status
      contentType := some page.1
      contentLength := page.2.length
      body := if method == "HEAD" then "" else page.2 }

/-- An exception escaping the wrapped application: a typed DAVError or any
other Python exception (kept as its display string). -/
inductive AppException where
  | dav (e : DAVError)
  | other (s : String)
deriving DecidableEq

/-- asDAVError of dav_error.py lines 248-258: a DAVError is returned as is,
any other exception becomes DAVError(HTTP_INTERNAL_ERROR, srcexception=e). -/
def asDAVError (x : AppException) : DAVError :=
  match x with
  | .dav e => e
  | .other s => { value := HTTP_INTERNAL_ERROR, srcexception := some s }

/-- What the error boundary does with a caught exception: convert it to an
HTTP response, or let it propagate out of ErrorPrinter. -/
inductive BoundaryResult where
  | response (r : ErrorResponse)
  | reraise (x : AppException)
deriving DecidableEq

/-- Exception dispatch of ErrorPrinter.call, error_printer.py lines 67-115:
a DAVError is re-raised to the outer handler, which renders it; any other
exception is converted through asDAVError and rendered only when the
catchall option is set, and otherwise re-raised out of the middleware after
the traceback is printed to stderr.  wsgidav_app.py line 243 constructs
ErrorPrinter with catchall=False. -/
def errorPrinterHandle (catchall : Bool) (method : String) (x : AppException) :
    BoundaryResult :=
  match x with
  | .dav e => .response (errorPrinterDAVResponse e method)
  | .other s =>
    if catchall then .response (errorPrinterDAVResponse (asDAVError (.other s)) method)
    else .reraise (.other s)

end AvaxWebdav

namespace AvaxWebdav

/-- Python path.split(b'/'): the list of segments between slashes, with empty
segments for leading, trailing and doubled slashes. -/
def splitSegs : List Char → List (List Char)
  | [] => [[]]
  | c :: rest =>
    match splitSegs rest with
    | [] => [[]]
    | seg :: segs => if c = '/' then [] :: seg :: segs else (c :: seg) :: segs

/-- Whether a URL path contains a dot-dot segment. -/
def hasDotDotSegment (path : Bytes) : Bool :=
  (splitSegs path).contains ['.', '.']

/-- Outcome of the request resolver for one request: rejected before any
provider operation, or dispatched to the method handler which performed the
given provider operations. -/
inductive ResolveOutcome where
  | reject (status : Nat)
  | handled (ops : List String)
deriving DecidableEq

/-- Modelled from the spec: the RequestResolver middleware
(wsgidav/request_resolver.py, imported by wsgidav_app.py line 63) is not
under src/.  The spec states that URLs containing dot-dot segments are
rejected with 400 before any provider operation is performed; otherwise the
request is dispatched to the method handler.  The handler's provider
operations are abstracted as a list of operation names. -/
def requestResolverCheck (path : Bytes) (handlerOps : List String) : ResolveOutcome :=
  if hasDotDotSegment path then .reject HTTP_BAD_REQUEST
  else .handled handlerOps

end AvaxWebdav

namespace AvaxWebdav

/-- A Python exception escaping a resource operation: a DAVError carrying a
status, or an AssertionError from a failed assert statement. -/
inductive PyError where
  | dav (status : Nat)
  | assertError
deriving DecidableEq

/-- Observable side effects of the provider resource operations: backend
batch calls, batch bookkeeping, and property/lock manager calls. -/
inductive Event where
  | removeDocument (path : Bytes)
  | removeFolder (path : Bytes)
  | createDocument (name : Bytes)
  | createFolder (name : Bytes)
  | moveItem (src dst : Bytes) (overwrite : Bool)
  | copyItem (src dst : Bytes) (overwrite : Bool)
  | moveFile (src dst : Bytes)
  | copyFile (src dst : Bytes)
  | copyFiles (src dst : Bytes)
  | putContentStream (path : Bytes)
  | setMimeType (path : Bytes)
  | setDirty
  | commitBatch
  | removeAllProperties (recursive : Bool)
  | removeAllLocks (recursive : Bool)
  | moveProperties (src dst : Bytes) (withChildren : Bool)
  | copyProperties (src dst : Bytes)
deriving DecidableEq

/-- ArchiveProvider of archive_provider.py lines 342-358: constructed with a
readonly flag (default False) that is stored on the instance. -/
structure ArchiveProvider where
  name : String
  readonly : Bool := false
deriving DecidableEq

/-- ArchiveProvider.isReadOnly, archive_provider.py lines 357-358: returns
False unconditionally, ignoring the stored readonly flag. -/
def ArchiveProvider.isReadOnly (_p : ArchiveProvider) : Bool := false

/-- RepositoryProvider of repo_provider.py lines 292-296: constructed with a
readonly flag (default False) that is stored on the instance. -/
structure RepositoryProvider where
  readonly : Bool := false
deriving DecidableEq

/-- RepositoryProvider.isReadOnly, repo_provider.py lines 314-315: returns
False unconditionally, ignoring the stored readonly flag. -/
def RepositoryProvider.isReadOnly (_p : RepositoryProvider) : Bool := false

/-- FileResource.beginWrite of archive_provider.py lines 72-84: raise 403
when the provider is read-only; else record the client content type on the
item (marking the batch dirty) when one was given, and open the write
stream. -/
def archiveFileBeginWrite (readonly : Bool) (contentType : Option String)
    (path : Bytes) : Except PyError (List Event) :=
  if readonly then .error (.dav HTTP_FORBIDDEN)
  else .ok ((if contentType.isSome then [Event.setMimeType path, Event.setDirty] else [])
    ++ [Event.putContentStream path])

/-- FileResource.delete of archive_provider.py lines 92-105: raise 403 when
read-only; else remove the document through the batch, then remove the dead
properties and locks recursively. -/
def archiveFileDelete (readonly : Bool) (path : Bytes) : Except PyError (List Event) :=
  if readonly then .error (.dav HTTP_FORBIDDEN)
  else .ok [Event.removeDocument path, Event.removeAllProperties true,
    Event.removeAllLocks true]

/-- FileResource.copyMoveSingle of archive_provider.py lines 124-143: raise
403 when read-only; the assert on util.isEqualOrChildUri (util.py is not
under src/, its value is taken as the eqOrChild argument) fires next; else
move or copy with overwrite, then move or copy the dead properties when a
property manager is configured. -/
def archiveFileCopyMoveSingle (readonly : Bool) (path destPath : Bytes)
    (isMove eqOrChild hasPropMan : Bool) : Except PyError (List Event) :=
  if readonly then .error (.dav HTTP_FORBIDDEN)
  else if eqOrChild then .error .assertError
  else .ok ((if isMove then [Event.moveItem path destPath true]
      else [Event.copyItem path destPath true])
    ++ (if hasPropMan then
        (if isMove then [Event.moveProperties path destPath false]
          else [Event.copyProperties path destPath])
      else []))

/-- FileResource.moveRecursive of archive_provider.py lines 149-164: raise
403 when read-only; assert on util.isEqualOrChildUri; else move the item,
mark the batch dirty, and move the dead properties with children when a
property manager is configured. -/
def archiveFileMoveRecursive (readonly : Bool) (path destPath : Bytes)
    (eqOrChild hasPropMan : Bool) : Except PyError (List Event) :=
  if readonly then .error (.dav HTTP_FORBIDDEN)
  else if eqOrChild then .error .assertError
  else .ok ([Event.moveItem path destPath false, Event.setDirty]
    ++ (if hasPropMan then [Event.moveProperties path destPath true] else []))

/-- FolderResource.createEmptyResource of archive_provider.py lines 228-243:
the assert that the name has no slash fires first, then 403 when read-only;
else create the document and mark the batch dirty (the final
getResourceInst is a read). -/
def archiveFolderCreateEmptyResource (readonly : Bool) (name : Bytes) :
    Except PyError (List Event) :=
  if name.contains '/' then .error .assertError
  else if readonly then .error (.dav HTTP_FORBIDDEN)
  else .ok [Event.createDocument name, Event.setDirty]

/-- FolderResource.createCollection of archive_provider.py lines 245-259:
the assert that the name has no slash fires first, then 403 when read-only;
else create the folder and mark the batch dirty. -/
def archiveFolderCreateCollection (readonly : Bool) (name : Bytes) :
    Except PyError (List Event) :=
  if name.contains '/' then .error .assertError
  else if readonly then .error (.dav HTTP_FORBIDDEN)
  else .ok [Event.createFolder name, Event.setDirty]

/-- FolderResource.delete of archive_provider.py lines 261-276: raise 403
when read-only; else call batch.remove_folder(path, forced=True) inside a
try whose except clause catches every exception and only logs it
(removeFolderRaises says whether the backend call raised); the dead
properties and locks of the subtree are then removed in either case. -/
def archiveFolderDelete (readonly : Bool) (path : Bytes) (removeFolderRaises : Bool) :
    Except PyError (List Event) :=
  if readonly then .error (.dav HTTP_FORBIDDEN)
  else .ok ((if removeFolderRaises then [] else [Event.removeFolder path])
    ++ [Event.removeAllProperties true, Event.removeAllLocks true])

/-- FolderResource.copyMoveSingle of archive_provider.py lines 297-317:
raise 403 when read-only; else move or copy with overwrite, mark the batch
dirty, then move or copy the dead properties when a property manager is
configured. -/
def archiveFolderCopyMoveSingle (readonly : Bool) (path destPath : Bytes)
    (isMove hasPropMan : Bool) : Except PyError (List Event) :=
  if readonly then .error (.dav HTTP_FORBIDDEN)
  else .ok ((if isMove then [Event.moveItem path destPath true]
      else [Event.copyItem path destPath true])
    ++ [Event.setDirty]
    ++ (if hasPropMan then
        (if isMove then [Event.moveProperties path destPath false]
          else [Event.copyProperties path destPath])
      else []))

/-- FolderResource.moveRecursive of archive_provider.py lines 327-339: raise
403 when read-only; else move the item, mark the batch dirty, then move the
dead properties with children when a property manager is configured. -/
def archiveFolderMoveRecursive (readonly : Bool) (path destPath : Bytes)
    (hasPropMan : Bool) : Except PyError (List Event) :=
  if readonly then .error (.dav HTTP_FORBIDDEN)
  else .ok ([Event.moveItem path destPath false, Event.setDirty]
    ++ (if hasPropMan then [Event.moveProperties path destPath true] else []))

/-- FileResource.beginWrite of repo_provider.py lines 68-77: raise 403 when
the provider is read-only; else open the write stream. -/
def repoFileBeginWrite (readonly : Bool) (path : Bytes) : Except PyError (List Event) :=
  if readonly then .error (.dav HTTP_FORBIDDEN)
  else .ok [Event.putContentStream path]

/-- FileResource.delete of repo_provider.py lines 84-95: raise 403 when
read-only; else remove the document, commit the batch, then remove the dead
properties and locks recursively. -/
def repoFileDelete (readonly : Bool) (path : Bytes) : Except PyError (List Event) :=
  if readonly then .error (.dav HTTP_FORBIDDEN)
  else .ok [Event.removeDocument path, Event.commitBatch,
    Event.removeAllProperties true, Event.removeAllLocks true]

/-- FileResource.copyMoveSingle of repo_provider.py lines 97-117: raise 403
when read-only; else move or copy the file, then move or copy the dead
properties when a property manager is configured. -/
def repoFileCopyMoveSingle (readonly : Bool) (path destPath : Bytes)
    (isMove hasPropMan : Bool) : Except PyError (List Event) :=
  if readonly then .error (.dav HTTP_FORBIDDEN)
  else .ok ((if isMove then [Event.moveFile path destPath]
      else [Event.copyFile path destPath])
    ++ (if hasPropMan then
        (if isMove then [Event.moveProperties path destPath false]
          else [Event.copyProperties path destPath])
      else []))

/-- FileResource.moveRecursive of repo_provider.py lines 123-136: raise 403
when read-only; else move the file, then move the dead properties with
children when a property manager is configured. -/
def repoFileMoveRecursive (readonly : Bool) (path destPath : Bytes)
    (hasPropMan : Bool) : Except PyError (List Event) :=
  if readonly then .error (.dav HTTP_FORBIDDEN)
  else .ok ([Event.moveFile path destPath]
    ++ (if hasPropMan then [Event.moveProperties path destPath true] else []))

/-- FolderResource.createEmptyResource of repo_provider.py lines 201-216:
the assert that the name has no slash fires first, then 403 when read-only;
else create the document and commit the batch (the final getResourceInst is
a read). -/
def repoFolderCreateEmptyResource (readonly : Bool) (name : Bytes) :
    Except PyError (List Event) :=
  if name.contains '/' then .error .assertError
  else if readonly then .error (.dav HTTP_FORBIDDEN)
  else .ok [Event.createDocument name, Event.commitBatch]

/-- FolderResource.createCollection of repo_provider.py lines 218-232: the
assert that the name has no slash fires first, then 403 when read-only;
else create the folder and commit the batch. -/
def repoFolderCreateCollection (readonly : Bool) (name : Bytes) :
    Except PyError (List Event) :=
  if name.contains '/' then .error .assertError
  else if readonly then .error (.dav HTTP_FORBIDDEN)
  else .ok [Event.createFolder name, Event.commitBatch]

/-- FolderResource.delete of repo_provider.py lines 234-247: raise 403 when
read-only; else remove the folder, remove the dead properties and locks
recursively, and commit the batch. -/
def repoFolderDelete (readonly : Bool) (path : Bytes) : Except PyError (List Event) :=
  if readonly then .error (.dav HTTP_FORBIDDEN)
  else .ok [Event.removeFolder path, Event.removeAllProperties true,
    Event.removeAllLocks true, Event.commitBatch]

/-- FolderResource.copyMoveSingle of repo_provider.py lines 249-269: raise
403 when read-only; else move the file or copy the files, move or copy the
dead properties when a property manager is configured, and commit the
batch. -/
def repoFolderCopyMoveSingle (readonly : Bool) (path destPath : Bytes)
    (isMove hasPropMan : Bool) : Except PyError (List Event) :=
  if readonly then .error (.dav HTTP_FORBIDDEN)
  else .ok ((if isMove then [Event.moveFile path destPath]
      else [Event.copyFiles path destPath])
    ++ (if hasPropMan then
        (if isMove then [Event.moveProperties path destPath false]
          else [Event.copyProperties path destPath])
      else [])
    ++ [Event.commitBatch])

/-- FolderResource.moveRecursive of repo_provider.py lines 276-289: raise
403 when read-only; else move the file, move the dead properties with
children when a property manager is configured, and commit the batch. -/
def repoFolderMoveRecursive (readonly : Bool) (path destPath : Bytes)
    (hasPropMan : Bool) : Except PyError (List Event) :=
  if readonly then .error (.dav HTTP_FORBIDDEN)
  else .ok ([Event.moveFile path destPath]
    ++ (if hasPropMan then [Event.moveProperties path destPath true] else [])
    ++ [Event.commitBatch])

end AvaxWebdav

namespace AvaxWebdav

/-- User map of domain_controller.py: realm name to a list of users, each
user carried with the password field of its user dictionary (the other
fields, description and roles, play no role in authentication). -/
abbrev UserMap := List (String × List (String × String))

/-- WsgiDAVDomainController.isRealmUser, domain_controller.py lines 75-81:
the realm is in the map and the username is in the realm's table. -/
def isRealmUser (um : UserMap) (realmname username : String) : Bool :=
  match um.lookup realmname with
  | some users => (users.lookup username).isSome
  | none => false

/-- WsgiDAVDomainController.getRealmUserPassword, domain_controller.py lines
83-89: the password stored for the user, None when realm or user is
missing. -/
def getRealmUserPassword (um : UserMap) (realmname username : String) : Option String :=
  (um.lookup realmname).bind (fun users => users.lookup username)

/-- WsgiDAVDomainController.authDomainUser, domain_controller.py lines
91-95: the user exists in the realm and the supplied password equals the
stored one. -/
def authDomainUser (um : UserMap) (realmname username password : String) : Bool :=
  match getRealmUserPassword um realmname username with
  | some pw => password == pw
  | none => false

/-- Result of an authentication attempt in HTTPAuthenticator: the request is
forwarded to the protected application with the realm and username recorded
in environ (keys http_authenticator.realm and http_authenticator.username),
or a 401 challenge of the given scheme is sent back, or the handler raises
an untyped Python exception. -/
inductive AuthResult where
  | forward (realm username : String)
  | basicChallenge
  | digestChallenge
  | pyError
deriving DecidableEq

/-- Python authvalue.split(b':', 1): the parts before and after the first
colon, or None when the string has no colon (in which case the source's
tuple unpacking raises ValueError). -/
def pySplitColon1 (s : String) : Option (String × String) :=
  if s.toList.contains ':' then
    some (String.mk (s.toList.takeWhile (fun c => c != ':')),
      String.mk ((s.toList.dropWhile (fun c => c != ':')).tail))
  else none

/-- HTTPAuthenticator.authBasicAuthRequest, http_authenticator.py lines
211-226, taken from the point where the base64 payload of the Authorization
header has been decoded: split the decoded value at the first colon into
username and password; when authDomainUser accepts the triple, record realm
and username in environ and forward, else send the 401 Basic challenge.  A
decoded value without a colon makes the tuple unpacking raise ValueError. -/
def authBasicAuthRequest (um : UserMap) (realmname decoded : String) : AuthResult :=
  match pySplitColon1 decoded with
  | none => .pyError
  | some (username, password) =>
    if authDomainUser um realmname username password then .forward realmname username
    else .basicChallenge

/-- Python str.upper on ASCII data. -/
def pyUpper (s : String) : String := String.mk (s.toList.map Char.toUpper)

/-- Python str.lower on ASCII data. -/
def pyLower (s : String) : String := String.mk (s.toList.map Char.toLower)

/-- Python u.replace(two backslashes, one backslash): collapse each pair of
consecutive backslashes, left to right. -/
def pyCollapseBackslashes : List Char → List Char
  | '\\' :: '\\' :: rest => '\\' :: pyCollapseBackslashes rest
  | c :: rest => c :: pyCollapseBackslashes rest
  | [] => []

/-- The Windows XP hotfix of http_authenticator.py lines 276-278 applied to
the submitted username: the guard on containment is redundant because the
replacement is the identity when no double backslash occurs. -/
def fixWinUsername (u : String) : String := String.mk (pyCollapseBackslashes u.toList)

/-- HTTPAuthenticator.computeDigestResponse, http_authenticator.py lines
369-386, with the MD5 function passed as a parameter (hashlib is an external
library).  cnonce and nc are consulted only in the qop branch, where the
caller has already established they are present. -/
def computeDigestResponse (md5 : String → String) (username realm password
    method uri nonce : String) (cnonce : Option String) (qop : Option String)
    (nc : Option String) : String :=
  let A1 := username ++ ":" ++ realm ++ ":" ++ password
  let A2 := method ++ ":" ++ uri
  match qop with
  | some q =>
    md5 (md5 A1 ++ ":" ++ (nonce ++ ":" ++ nc.getD "" ++ ":" ++ cnonce.getD ""
      ++ ":" ++ q ++ ":" ++ md5 A2))
  | none => md5 (md5 A1 ++ ":" ++ (nonce ++ ":" ++ md5 A2))

/-- The isinvalidreq accumulation of HTTPAuthenticator.authDigestAuthRequest,
http_authenticator.py lines 254-336, for a header that did carry a username:
the scheme word must be digest, the (backslash-fixed) username must be a
realm user, a submitted realm must match the expected realm up to case (with
the Windows XP hotfix also accepting the root realm), a submitted algorithm
must be MD5, a nonce and a response must be present, a submitted qop must be
auth and then requires cnonce and nc. -/
def digestHeaderInvalid (um : UserMap) (realmname : String)
    (schemeIsDigest : Bool) (hdr : List (String × String)) (username : String) : Bool :=
  (!schemeIsDigest)
  || (!isRealmUser um realmname username)
  || (match hdr.lookup "realm" with
      | some r =>
        if pyUpper r != pyUpper realmname then (pyUpper r != "/") else false
      | none => false)
  || (match hdr.lookup "algorithm" with
      | some a => pyUpper a != "MD5"
      | none => false)
  || (hdr.lookup "nonce").isNone
  || (match hdr.lookup "qop" with
      | some q => pyLower q != "auth"
      | none => false)
  || ((hdr.lookup "qop").isSome && (hdr.lookup "cnonce").isNone)
  || ((hdr.lookup "qop").isSome && (hdr.lookup "nc").isNone)
  || (hdr.lookup "response").isNone

/-- HTTPAuthenticator.authDigestAuthRequest, http_authenticator.py lines
250-366, taken from the point where the Authorization header has been parsed
into a key/value list (the regex parse of lines 256-264) and the scheme word
has been examined (line 258).  A header without a username leaves
isinvalidreq set and then crashes with UnboundLocalError at the failure log
of line 361, which references the never-assigned req_username; the same
happens at the computeDigestResponse call when every check passed but no uri
was submitted.  When a check fails the 401 Digest challenge is sent; when
the digest computed from the stored password (or, failing that, the Windows
XP root-realm digest of lines 347-353) matches the submitted response, the
realm and the backslash-fixed username are recorded in environ and the
request is forwarded. -/
def authDigestAuthRequest (md5 : String → String) (um : UserMap)
    (realmname method : String) (schemeIsDigest : Bool)
    (hdr : List (String × String)) : AuthResult :=
  match hdr.lookup "username" with
  | none => .pyError
  | some u0 =>
    let req_username := fixWinUsername u0
    if digestHeaderInvalid um realmname schemeIsDigest hdr req_username then
      .digestChallenge
    else
      match hdr.lookup "uri" with
      | none => .pyError
      | some uri =>
        let password := (getRealmUserPassword um realmname req_username).getD ""
        let nonce := (hdr.lookup "nonce").getD ""
        let response := (hdr.lookup "response").getD ""
        let required := computeDigestResponse md5 req_username realmname password
          method uri nonce (hdr.lookup "cnonce") (hdr.lookup "qop") (hdr.lookup "nc")
        if required != response then
          let rootDigest := computeDigestResponse md5 req_username "/" password
            method uri nonce (hdr.lookup "cnonce") (hdr.lookup "qop") (hdr.lookup "nc")
          if rootDigest == response then .forward realmname req_username
          else .digestChallenge
        else .forward realmname req_username

end AvaxWebdav

namespace AvaxWebdav

/-- A DAVError with status 204 that also carries a pre/post-condition, as the
DAVError constructor of dav_error.py permits. -/
def example204Condition : DAVError :=
  { value := HTTP_NO_CONTENT,
    errcondition := some { conditionCode := "propfind-finite-depth", hrefs := [] } }

/-- A DAVError carrying a condition with a conflicting href. -/
def exampleLockedCondition : DAVError :=
  { value := 423,
    errcondition := some { conditionCode := "no-conflicting-lock", hrefs := ["/x"] } }

/-- A user map with one realm and one user, the shape of the test
configuration in tests/test_wsgidav_app.py. -/
def exampleUserMap : UserMap := [("/", [("tester", "secret")])]

/-- A parsed digest Authorization header whose credentials are correct for
exampleUserMap but whose algorithm field is not MD5.  The response value is
the digest the authenticator would compute for these fields when the hash
function is the identity. -/
def exampleDigestHeader : List (String × String) :=
  [("username", "tester"), ("realm", "/"), ("algorithm", "SHA-256"),
   ("nonce", "n1"), ("uri", "/"), ("response", "tester:/:secret:n1:GET:/")]

/-- A parsed digest Authorization header that the authenticator accepts when
the hash function is the identity. -/
def exampleForwardHeader : List (String × String) :=
  [("username", "tester"), ("realm", "/"), ("algorithm", "MD5"),
   ("nonce", "n1"), ("uri", "/"), ("response", "tester:/:secret:n1:GET:/")]

end AvaxWebdav

namespace AvaxWebdav

/-- Dropping one leading slash does not change the slash-stripped path. -/
theorem pyStrip_isSlash_cons (path : Bytes) :
    pyStrip isSlash ('/' :: path) = pyStrip isSlash path := by
  simp [pyStrip, List.dropWhile_cons, isSlash]

/-- Claim C1, counterexample: with a batch bound for an ArchiveProvider
request, the finalization of WsgiDAVApp.call commits the batch both when the
handler raises and when it returns a 500 status; the batch is not aborted as
the claim states. -/
theorem claim1_counterexample :
    wsgiFinalizeBatch ((wsgiOpenBatch true "PUT").isSome) HandlerOutcome.exc
        = BatchDisposition.committed
      ∧ wsgiFinalizeBatch ((wsgiOpenBatch true "PUT").isSome) (HandlerOutcome.ok 500)
        = BatchDisposition.committed
      ∧ BatchDisposition.committed ≠ BatchDisposition.aborted :=
  ⟨rfl, rfl, by decide⟩

/-- Claim C1, amended: for every request routed to an ArchiveProvider the
router binds a batch before dispatch, and the batch is committed
unconditionally when the request finishes, on normal return of the method
handler, on any exception, and for any response status alike; no outcome
aborts a batch. -/
theorem claim1_batch_lifecycle :
    ∀ (method : String) (o : HandlerOutcome) (b : Bool),
      (wsgiOpenBatch true method).isSome = true
      ∧ wsgiFinalizeBatch true o = BatchDisposition.committed
      ∧ wsgiFinalizeBatch b o ≠ BatchDisposition.aborted := by
  intro method o b
  refine ⟨rfl, ?_, ?_⟩ <;> cases o <;> cases b <;> simp [wsgiFinalizeBatch]

/-- Claim C2, counterexample: with the provider map that WsgiDAVApp.init
builds (root share and temp share registered), a request whose first path
segment names no registered share is routed to no provider at all, not to
the root-mounted provider as the claim states. -/
theorem claim2_counterexample :
    routeProvider exampleProviderMap "repo" "/unknown/x".toList = none
      ∧ (none : Option String) ≠ some "repo" := by
  exact ⟨by decide, by decide⟩

/-- Claim C2, amended: share matching strips leading and trailing slashes
and extracts the first path segment as the candidate share name; the
root-mounted repository provider is used exactly when that segment is empty;
otherwise the provider registered for slash plus the segment is used, and
when none is registered the request is bound to no provider. -/
theorem claim2_share_matching :
    ∀ {α : Type} (pm : List (Bytes × α)) (repo : α) (path : Bytes),
      routeProvider pm repo ('/' :: path) = routeProvider pm repo path
      ∧ (firstSegment (pyStrip isSlash path) = [] →
          routeProvider pm repo path = some repo)
      ∧ (firstSegment (pyStrip isSlash path) ≠ [] →
          routeProvider pm repo path
            = pm.lookup ('/' :: firstSegment (pyStrip isSlash path))) := by
  intro α pm repo path
  refine ⟨?_, ?_, ?_⟩
  · simp only [routeProvider, pyStrip_isSlash_cons]
  · intro h
    simp only [firstSegment] at h
    simp only [routeProvider, h]
    simp
  · intro h
    simp only [firstSegment] at h
    simp only [routeProvider]
    rw [if_neg h]
    rfl

/-- Claim C2, witness: a request for the temp share resolves through the
lookup of the first-segment share key. -/
theorem claim2_witness :
    routeProvider exampleProviderMap "repo" "/temp/x".toList
      = exampleProviderMap.lookup
          ('/' :: firstSegment (pyStrip isSlash "/temp/x".toList)) :=
  (claim2_share_matching exampleProviderMap "repo" "/temp/x".toList).2.2 (by decide)

/-- Claim C3: a request URL path containing a dot-dot segment is rejected by
the resolver with status 400 and the method handler performs no provider
operation.  The resolver is modelled from the spec because
request_resolver.py is not under src/. -/
theorem claim3_dotdot_rejected (path : Bytes) (handlerOps : List String)
    (h : hasDotDotSegment path = true) :
    requestResolverCheck path handlerOps = ResolveOutcome.reject HTTP_BAD_REQUEST
      ∧ requestResolverCheck path handlerOps ≠ ResolveOutcome.handled handlerOps := by
  simp [requestResolverCheck, h]

/-- Claim C3, witness: the check applied to a concrete traversal path. -/
theorem claim3_witness :
    requestResolverCheck "/a/../b".toList ["getResource"]
        = ResolveOutcome.reject HTTP_BAD_REQUEST
      ∧ requestResolverCheck "/a/../b".toList ["getResource"]
        ≠ ResolveOutcome.handled ["getResource"] :=
  claim3_dotdot_rejected "/a/../b".toList ["getResource"] (by decide)

/-- Claim C4, counterexample: the router opens a read-only batch for the
method PROPGET although PROPGET is not among the four methods the claim
lists as the exact read-only set. -/
theorem claim4_counterexample :
    wsgiOpenBatch true "PROPGET" = some { readonly := true }
      ∧ "PROPGET" ∉ claimedReadonlyMethods := by
  exact ⟨rfl, by decide⟩

/-- Claim C4, amended: the batch opened by the router for a batching
provider is read-only exactly when the request method is one of GET, HEAD,
OPTIONS, PROPFIND or the legacy alias PROPGET, and writable for every other
method. -/
theorem claim4_readonly_methods (method : String) (b : OpenedBatch)
    (h : wsgiOpenBatch true method = some b) :
    b.readonly = true ↔ (method ∈ claimedReadonlyMethods ∨ method = "PROPGET") := by
  simp only [wsgiOpenBatch, if_pos, Option.some.injEq] at h
  subst h
  simp [batchReadonly, READONLY_METHODS, claimedReadonlyMethods]
  tauto

/-- Claim C4, witness: the amended characterization applied to GET. -/
theorem claim4_witness :
    ({ readonly := true } : OpenedBatch).readonly = true
      ↔ ("GET" ∈ claimedReadonlyMethods ∨ "GET" = "PROPGET") :=
  claim4_readonly_methods "GET" { readonly := true } rfl

end AvaxWebdav

namespace AvaxWebdav

/-- Claim C5: every mutating resource operation of both providers
(beginWrite, delete, createEmptyResource, createCollection, copyMoveSingle,
moveRecursive, on file and folder resources alike) raises DAVError 403 when
the provider's readonly flag is set, before issuing any backend call; the
error result carries no events, so no backend mutation happens.  For the
two create operations the member name must pass the source's leading assert
that it contains no slash, which runs before the readonly check. -/
theorem claim5_readonly_forbidden :
    ∀ (path destPath name : Bytes) (ct : Option String)
      (isMove eqOrChild hasPropMan removeFolderRaises : Bool),
      name.contains '/' = false →
      archiveFileBeginWrite true ct path = .error (PyError.dav HTTP_FORBIDDEN)
      ∧ archiveFileDelete true path = .error (PyError.dav HTTP_FORBIDDEN)
      ∧ archiveFileCopyMoveSingle true path destPath isMove eqOrChild hasPropMan
          = .error (PyError.dav HTTP_FORBIDDEN)
      ∧ archiveFileMoveRecursive true path destPath eqOrChild hasPropMan
          = .error (PyError.dav HTTP_FORBIDDEN)
      ∧ archiveFolderCreateEmptyResource true name = .error (PyError.dav HTTP_FORBIDDEN)
      ∧ archiveFolderCreateCollection true name = .error (PyError.dav HTTP_FORBIDDEN)
      ∧ archiveFolderDelete true path removeFolderRaises
          = .error (PyError.dav HTTP_FORBIDDEN)
      ∧ archiveFolderCopyMoveSingle true path destPath isMove hasPropMan
          = .error (PyError.dav HTTP_FORBIDDEN)
      ∧ archiveFolderMoveRecursive true path destPath hasPropMan
          = .error (PyError.dav HTTP_FORBIDDEN)
      ∧ repoFileBeginWrite true path = .error (PyError.dav HTTP_FORBIDDEN)
      ∧ repoFileDelete true path = .error (PyError.dav HTTP_FORBIDDEN)
      ∧ repoFileCopyMoveSingle true path destPath isMove hasPropMan
          = .error (PyError.dav HTTP_FORBIDDEN)
      ∧ repoFileMoveRecursive true path destPath hasPropMan
          = .error (PyError.dav HTTP_FORBIDDEN)
      ∧ repoFolderCreateEmptyResource true name = .error (PyError.dav HTTP_FORBIDDEN)
      ∧ repoFolderCreateCollection true name = .error (PyError.dav HTTP_FORBIDDEN)
      ∧ repoFolderDelete true path = .error (PyError.dav HTTP_FORBIDDEN)
      ∧ repoFolderCopyMoveSingle true path destPath isMove hasPropMan
          = .error (PyError.dav HTTP_FORBIDDEN)
      ∧ repoFolderMoveRecursive true path destPath hasPropMan
          = .error (PyError.dav HTTP_FORBIDDEN) := by
  intro path destPath name ct isMove eqOrChild hasPropMan removeFolderRaises hname
  have hmem : '/' ∉ name := by simpa using hname
  refine ⟨rfl, rfl, rfl, rfl, ?_, ?_, rfl, rfl, rfl, rfl, rfl, rfl, rfl, ?_, ?_,
    rfl, rfl, rfl⟩ <;>
    simp [archiveFolderCreateEmptyResource, archiveFolderCreateCollection,
      repoFolderCreateEmptyResource, repoFolderCreateCollection, hmem]

/-- Claim C5, witness: a read-only archive provider folder refuses to create
a collection with status 403. -/
theorem claim5_witness :
    archiveFolderCreateCollection true "sub".toList
      = .error (PyError.dav HTTP_FORBIDDEN) :=
  (claim5_readonly_forbidden "/a".toList "/b".toList "sub".toList none
    false false false false (by decide)).2.2.2.2.2.1

/-- Claim C9: isReadOnly of both ArchiveProvider and RepositoryProvider
returns False for every instance, whatever readonly flag the instance was
constructed with, while a resource of a readonly-flagged provider still
refuses a mutating operation with 403 Forbidden. -/
theorem claim9_isReadOnly_always_false :
    ∀ (n : String) (flag : Bool) (ct : Option String) (path : Bytes),
      (ArchiveProvider.mk n flag).isReadOnly = false
      ∧ (RepositoryProvider.mk flag).isReadOnly = false
      ∧ archiveFileBeginWrite true ct path = .error (PyError.dav HTTP_FORBIDDEN)
      ∧ repoFileBeginWrite true path = .error (PyError.dav HTTP_FORBIDDEN) := by
  intro n flag ct path
  exact ⟨rfl, rfl, rfl, rfl⟩

/-- Claim C10: delete on an archive provider folder resource never
propagates a backend failure: whether or not the batch's remove_folder call
raises, the operation completes normally and the dead properties and locks
of the subtree are removed. -/
theorem claim10_delete_suppresses_backend_failure :
    ∀ (path : Bytes) (removeFolderRaises : Bool),
      ∃ evs, archiveFolderDelete false path removeFolderRaises = .ok evs
        ∧ Event.removeAllProperties true ∈ evs
        ∧ Event.removeAllLocks true ∈ evs := by
  intro path removeFolderRaises
  refine ⟨_, rfl, ?_, ?_⟩ <;> cases removeFolderRaises <;> simp

/-- Claim C6, counterexample: with the catch-all option disabled, as
wsgidav_app.py line 243 configures it, a non-DAVError exception is re-raised
out of the error boundary instead of being converted to the 500 response the
claim states. -/
theorem claim6_counterexample :
    errorPrinterHandle false "GET" (AppException.other "ValueError: boom")
        = BoundaryResult.reraise (AppException.other "ValueError: boom")
      ∧ BoundaryResult.reraise (AppException.other "ValueError: boom")
        ≠ BoundaryResult.response (errorPrinterDAVResponse
            (asDAVError (AppException.other "ValueError: boom")) "GET") := by
  exact ⟨rfl, by simp⟩

/-- Claim C6, amended: a non-DAVError exception raised by a method handler
is converted by the error boundary to a 500 Internal Server Error response
(through asDAVError, which records the exception text but not the traceback)
only when the catch-all option is enabled; when it is disabled, the default
and the configuration the application uses, the traceback is printed to the
log and the raw exception is re-raised out of the boundary. -/
theorem claim6_catchall_boundary :
    ∀ (s method : String),
      errorPrinterHandle true method (AppException.other s)
        = BoundaryResult.response (errorPrinterDAVResponse
            { value := HTTP_INTERNAL_ERROR, srcexception := some s } method)
      ∧ (errorPrinterDAVResponse
            { value := HTTP_INTERNAL_ERROR, srcexception := some s } method).status
          = "500 Internal Server Error"
      ∧ errorPrinterHandle false method (AppException.other s)
        = BoundaryResult.reraise (AppException.other s) := by
  intro s method
  exact ⟨rfl, rfl, rfl⟩

/-- Claim C7, counterexample: a DAVError with status 204 that carries a
pre/post-condition is answered with an empty body and no content type, not
with the XML condition document the claim prescribes for every
condition-carrying error. -/
theorem claim7_counterexample :
    (errorPrinterDAVResponse example204Condition "GET").contentType = none
      ∧ (errorPrinterDAVResponse example204Condition "GET").body = ""
      ∧ (none : Option String) ≠ some "application/xml" := by
  exact ⟨rfl, rfl, by decide⟩

/-- Claim C7, amended: for a DAVError caught at the error boundary, statuses
204 and 304 always produce an empty body with Content-Length 0, even when a
condition is attached; for every other status, an error carrying a condition
is answered with the XML condition document under content type
application/xml, and an error without a condition with the small HTML error
page, the body being suppressed for HEAD requests while Content-Length still
gives the page length. -/
theorem claim7_error_response_pages :
    ∀ (e : DAVError) (method : String),
      ((e.value = HTTP_NO_CONTENT ∨ e.value = HTTP_NOT_MODIFIED) →
        errorPrinterDAVResponse e method
          = { status := getHttpStatusString e.value, contentType := none,
              contentLength := 0, body := "" })
      ∧ (¬ (e.value = HTTP_NO_CONTENT ∨ e.value = HTTP_NOT_MODIFIED) →
          ∀ c, e.errcondition = some c →
            (errorPrinterDAVResponse e method).contentType = some "application/xml"
            ∧ (errorPrinterDAVResponse e method).contentLength = c.asString.length
            ∧ (method ≠ "HEAD" → (errorPrinterDAVResponse e method).body = c.asString)
            ∧ (method = "HEAD" → (errorPrinterDAVResponse e method).body = ""))
      ∧ (¬ (e.value = HTTP_NO_CONTENT ∨ e.value = HTTP_NOT_MODIFIED) →
          e.errcondition = none →
            (errorPrinterDAVResponse e method).contentType
              = some "text/html; charset=utf-8"
            ∧ (errorPrinterDAVResponse e method).contentLength
              = e.getResponsePage.2.length
            ∧ (method ≠ "HEAD" →
                (errorPrinterDAVResponse e method).body = e.getResponsePage.2)
            ∧ (method = "HEAD" → (errorPrinterDAVResponse e method).body = "")) := by
  intro e method
  have hsplit : ∀ (hne : ¬ (e.value = HTTP_NO_CONTENT ∨ e.value = HTTP_NOT_MODIFIED)),
      (e.value == HTTP_NOT_MODIFIED || e.value == HTTP_NO_CONTENT) = false := by
    intro hne
    simp only [Bool.or_eq_false_iff, beq_eq_false_iff_ne]
    exact ⟨fun h2 => hne (Or.inr h2), fun h2 => hne (Or.inl h2)⟩
  refine ⟨?_, ?_, ?_⟩
  · intro h
    have hb : (e.value == HTTP_NOT_MODIFIED || e.value == HTTP_NO_CONTENT) = true := by
      rcases h with h | h <;> simp [h]
    simp [errorPrinterDAVResponse, hb]
  · intro h c hc
    have hb := hsplit h
    refine ⟨?_, ?_, fun hm => ?_, fun hm => ?_⟩
    · simp [errorPrinterDAVResponse, hb, DAVError.getResponsePage, hc]
    · simp [errorPrinterDAVResponse, hb, DAVError.getResponsePage, hc]
    · simp [errorPrinterDAVResponse, hb, DAVError.getResponsePage, hc, hm]
    · subst hm
      simp [errorPrinterDAVResponse, hb, DAVError.getResponsePage, hc]
  · intro h hc
    have hb := hsplit h
    refine ⟨?_, ?_, fun hm => ?_, fun hm => ?_⟩
    · simp [errorPrinterDAVResponse, hb, DAVError.getResponsePage, hc]
    · simp [errorPrinterDAVResponse, hb, DAVError.getResponsePage, hc]
    · simp [errorPrinterDAVResponse, hb, DAVError.getResponsePage, hc, hm]
    · subst hm
      simp [errorPrinterDAVResponse, hb, DAVError.getResponsePage, hc]

/-- Claim C7, witness: a 423 error carrying a condition produces the XML
condition document with Content-Length matching for a GET request, while a
HEAD request gets the empty body with the same Content-Length. -/
theorem claim7_witness :
    (errorPrinterDAVResponse exampleLockedCondition "GET").contentType
        = some "application/xml"
      ∧ (errorPrinterDAVResponse exampleLockedCondition "GET").body
        = DAVErrorCondition.asString
            { conditionCode := "no-conflicting-lock", hrefs := ["/x"] }
      ∧ (errorPrinterDAVResponse exampleLockedCondition "GET").contentLength
        = (DAVErrorCondition.asString
            { conditionCode := "no-conflicting-lock", hrefs := ["/x"] }).length
      ∧ (errorPrinterDAVResponse exampleLockedCondition "HEAD").body = ""
      ∧ (errorPrinterDAVResponse exampleLockedCondition "HEAD").contentLength
        = (DAVErrorCondition.asString
            { conditionCode := "no-conflicting-lock", hrefs := ["/x"] }).length := by
  have hG := (claim7_error_response_pages exampleLockedCondition "GET").2.1
    (by decide) { conditionCode := "no-conflicting-lock", hrefs := ["/x"] } rfl
  have hH := (claim7_error_response_pages exampleLockedCondition "HEAD").2.1
    (by decide) { conditionCode := "no-conflicting-lock", hrefs := ["/x"] } rfl
  exact ⟨hG.1, hG.2.2.1 (by decide), hG.2.1, hH.2.2.2 rfl, hH.2.1⟩

end AvaxWebdav

namespace AvaxWebdav

/-- takeWhile up to the first colon recovers a colon-free left part. -/
theorem takeWhile_append_colon (u rest : List Char) (h : ':' ∉ u) :
    (u ++ ':' :: rest).takeWhile (fun c => c != ':') = u := by
  induction u with
  | nil => simp
  | cons c cs ih =>
    simp only [List.mem_cons, not_or] at h
    have hc : (c != ':') = true := by
      simpa using fun hcc => h.1 hcc.symm
    simp [List.takeWhile_cons, hc, ih h.2]

/-- dropWhile up to the first colon leaves the colon and the right part. -/
theorem dropWhile_append_colon (u rest : List Char) (h : ':' ∉ u) :
    (u ++ ':' :: rest).dropWhile (fun c => c != ':') = ':' :: rest := by
  induction u with
  | nil => simp
  | cons c cs ih =>
    simp only [List.mem_cons, not_or] at h
    have hc : (c != ':') = true := by
      simpa using fun hcc => h.1 hcc.symm
    simp [List.dropWhile_cons, hc, ih h.2]

/-- Splitting a credential string assembled from a colon-free username and a
password recovers the two parts. -/
theorem pySplitColon1_concat (u p : String) (h : ':' ∉ u.toList) :
    pySplitColon1 (u ++ ":" ++ p) = some (u, p) := by
  have hdata : (u ++ ":" ++ p).toList = u.toList ++ ':' :: p.toList := by
    simp [String.toList, String.data_append]
  unfold pySplitColon1
  rw [hdata]
  have hcontains : (u.toList ++ ':' :: p.toList).contains ':' = true := by
    simp
  rw [if_pos hcontains, takeWhile_append_colon _ _ h, dropWhile_append_colon _ _ h]
  simp [String.toList]

/-- Claim C8, counterexample: a digest request whose credentials the domain
controller does validate (authDomainUser accepts realm, username and
password, and the submitted response is exactly the digest the authenticator
computes from the stored password) is still answered with a 401 challenge
instead of being forwarded, because its algorithm field is not MD5. -/
theorem claim8_counterexample :
    authDomainUser exampleUserMap "/" "tester" "secret" = true
      ∧ computeDigestResponse (fun s => s) "tester" "/" "secret" "GET" "/" "n1"
          none none none = "tester:/:secret:n1:GET:/"
      ∧ authDigestAuthRequest (fun s => s) exampleUserMap "/" "GET" true
          exampleDigestHeader = AuthResult.digestChallenge
      ∧ AuthResult.digestChallenge ≠ AuthResult.forward "/" "tester" := by
  exact ⟨by decide, by decide, by decide, by decide⟩

/-- Claim C8, amended: for a Basic request, the request is forwarded exactly
when the domain controller validates the (realm, username, password) triple,
with the realm and username recorded on the forwarded request and a 401
Basic challenge returned otherwise; for a Digest request, a forwarded
request always records the expected realm together with a username that the
domain controller knows in that realm, but forwarding additionally requires
a well-formed digest header (digest scheme, matching realm up to the root
hotfix, MD5 algorithm, nonce and response present, qop auth with cnonce and
nc when given) and a matching response digest, so a valid user can still be
challenged. -/
theorem claim8_auth_validation :
    ∀ (um : UserMap) (realmname username password : String)
      (md5 : String → String) (method : String) (schemeIsDigest : Bool)
      (hdr : List (String × String)) (r u : String),
      (':' ∉ username.toList →
        authBasicAuthRequest um realmname (username ++ ":" ++ password)
          = (if authDomainUser um realmname username password
              then AuthResult.forward realmname username
              else AuthResult.basicChallenge))
      ∧ (authDigestAuthRequest md5 um realmname method schemeIsDigest hdr
            = AuthResult.forward r u →
          r = realmname ∧ isRealmUser um realmname u = true) := by
  intro um realmname username password md5 method schemeIsDigest hdr r u
  constructor
  · intro h
    rw [authBasicAuthRequest, pySplitColon1_concat username password h]
  · intro hf
    simp only [authDigestAuthRequest] at hf
    split at hf
    · exact absurd hf (by simp)
    next u0 hu =>
      by_cases hinv : digestHeaderInvalid um realmname schemeIsDigest hdr
          (fixWinUsername u0)
      · rw [if_pos hinv] at hf
        exact absurd hf (by simp)
      · rw [if_neg hinv] at hf
        have hrealm : isRealmUser um realmname (fixWinUsername u0) = true := by
          simp only [digestHeaderInvalid, Bool.or_eq_true, not_or,
            Bool.not_eq_true] at hinv
          simpa using hinv.1.1.1.1.1.1.1.2
        split at hf
        · exact absurd hf (by simp)
        next uri huri =>
          split at hf
          · split at hf
            · cases hf
              exact ⟨rfl, hrealm⟩
            · exact absurd hf (by simp)
          · cases hf
            exact ⟨rfl, hrealm⟩

/-- Claim C8, witness: the amended statement applied to the one-user realm,
for a Basic request with the correct password and for a Digest request that
the authenticator accepts when the hash function is the identity. -/
theorem claim8_witness :
    (authBasicAuthRequest exampleUserMap "/" ("tester" ++ ":" ++ "secret")
        = (if authDomainUser exampleUserMap "/" "tester" "secret"
            then AuthResult.forward "/" "tester" else AuthResult.basicChallenge))
      ∧ ("/" = "/" ∧ isRealmUser exampleUserMap "/" "tester" = true) :=
  ⟨(claim8_auth_validation exampleUserMap "/" "tester" "secret" (fun s => s)
      "GET" true exampleForwardHeader "/" "tester").1 (by decide),
   (claim8_auth_validation exampleUserMap "/" "tester" "secret" (fun s => s)
      "GET" true exampleForwardHeader "/" "tester").2 (by decide)⟩

end AvaxWebdav
